import Mathlib

set_option maxRecDepth 4000

/-!
Shallow embedding of `commands/commands.go` (git-lfs): the diagnostic
capture and crash-reporting subsystem.  Output streams are modelled as
strings accumulated in an explicit process state; `os.Exit` is modelled
by recording the exit status (nothing executes after it in the embedded
call paths); the filesystem and the ambient process data consumed by the
panic-log writer are an explicit `World` record.
-/

namespace commands

/-- The `ErrorWithStack` capability interface: `Context()`,
`InnerError()`, `Stack()`.  A Go map is modelled as an association list;
Go map iteration order is unspecified, the list order stands in for the
iteration order actually used. -/
structure StackCap where
  context : List (String × String)
  innerError : String
  stack : String
deriving DecidableEq

/-- A Go `error` value as observed by this package: its `Error()` message,
the `errutil.IsFatalError` classification, the message of
`errutil.GetInnerError` (none when that returns nil), and the optional
`ErrorWithStack` capability. -/
structure GoError where
  msg : String
  fatal : Bool
  inner : Option String
  cap : Option StackCap
deriving DecidableEq

/-- Destination of one `logPanicToWriter` invocation. -/
inductive LogDest where
  | fileDest
  | stderrDest
deriving DecidableEq

/-- Process state: the real streams (`os.Stdout`, `os.Stderr`), the shared
transcript `ErrorBuffer`, the `Debugging` flag, the log files created so
far (path and contents), the `logPanicToWriter` invocations so far
(destination and logged error), and the recorded `os.Exit` status. -/
structure ProcState where
  stdout : String
  stderr : String
  errorBuffer : String
  debugging : Bool
  logFiles : List (String × String)
  logEvents : List (LogDest × GoError)
  exitCode : Option Nat
deriving DecidableEq

/-- Ambient data consumed by `logPanic` / `logPanicToWriter`:
`config.VersionDesc`, the pair returned by `git.Config.Version()`
(value, optional error message), `os.Args` as `arg0 :: argRest`
(a process always has an argv[0]), `lfs.Environ()`, `errutil.Stack()`,
`config.LocalLogDir`, the formatted timestamp `now.Format(...)`, and the
outcomes of `os.MkdirAll` and `os.Create` (none = success, some = the
error produced). -/
structure World where
  versionDesc : String
  gitVersionRet : String × Option String
  arg0 : String
  argRest : List String
  environ : List String
  genericStack : String
  localLogDir : String
  timestamp : String
  mkdirErr : Option String
  createErr : Option GoError
deriving DecidableEq

/-- The type of `fmt.Sprintf`, left abstract: the embedded functions are
parametric in the formatter, variadic `interface\x7b\x7d` arguments are
modelled as a list of strings. -/
abbrev Sprintf := String → List String → String

/-- `strings.Join(elems, sep)`. -/
def goStringsJoin (sep : String) : List String → String
  | [] => ""
  | [a] => a
  | a :: b :: rest => a ++ sep ++ goStringsJoin sep (b :: rest)

/-- Drop trailing path separators, as `filepath.Base` does first. -/
def dropTrailingSeps (cs : List Char) : List Char :=
  (cs.reverse.dropWhile (fun c => c = '/')).reverse

/-- Everything after the last separator. -/
def lastComponent (cs : List Char) : List Char :=
  (cs.reverse.takeWhile (fun c => c ≠ '/')).reverse

/-- `filepath.Base` (Unix separators; the volume name is empty). -/
def filepathBase (p : String) : String :=
  if p = "" then "."
  else
    let cs := lastComponent (dropTrailingSeps p.toList)
    if cs.isEmpty then "/" else String.mk cs

/-- `filepath.Join(dir, name)` for the two-element call in `logPanic`.
Both arguments there are already clean, so the final `Clean` pass of the
Go implementation is the identity and is omitted. -/
def filepathJoin (dir name : String) : String :=
  if dir = "" then name else dir ++ "/" ++ name

/-- One `fmt.Fprintln(w, env)` per environment variable. -/
def envLines : List String → String
  | [] => ""
  | e :: rest => e ++ "\n" ++ envLines rest

/-- The `fmt.Fprintf(w, "%s=%s\n", key, value)` loop over the context map. -/
def contextLines : List (String × String) → String
  | [] => ""
  | (k, v) :: rest => k ++ "=" ++ v ++ "\n" ++ contextLines rest

/-- `logPanicToWriter(w, loggedError)`: the bytes written to the writer,
accumulated statement by statement in source order. -/
def logPanicToWriter (w : World) (buf : String) (e : GoError) : String :=
  let gitV := match w.gitVersionRet with
    | (v, none) => v
    | (_, some emsg) => "Error getting git version: " ++ emsg
  let out := ""
  let out := out ++ w.versionDesc ++ "\n"
  let out := out ++ gitV ++ "\n"
  let out := out ++ "\n"
  let out := out ++ "$ " ++ filepathBase w.arg0
  -- len(os.Args) > 0 always holds: os.Args = arg0 :: argRest
  let out := out ++ " " ++ goStringsJoin " " w.argRest
  let out := out ++ "\n"
  let out := out ++ buf
  let out := out ++ "\n"
  let out := out ++ e.msg ++ "\n"
  let out := out ++ (match e.cap with
    | some c => c.innerError ++ "\n" ++ contextLines c.context ++ c.stack
    | none => w.genericStack)
  let out := out ++ "\nENV:\n"
  out ++ envLines w.environ

/-- Result of one `logPanic` call: the returned path, the bytes written to
the real `os.Stderr`, the contents of the created log file (if one was
created), and the `logPanicToWriter` invocations in order. -/
structure LogResult where
  path : String
  stderrOut : String
  fileContent : Option String
  events : List (LogDest × GoError)
deriving DecidableEq

/-- `logPanic(loggedError)`.  `buf` is the current contents of
`ErrorBuffer` when the panic is logged.  On `os.Create` failure the
deferred block runs after the main `logPanicToWriter` call: the warning
naming the file, then the body of the creation error itself. -/
def logPanic (w : World) (buf : String) (e : GoError) : LogResult :=
  let name := w.timestamp
  let full := filepathJoin w.localLogDir (name ++ ".log")
  match w.mkdirErr with
  | some merr =>
    { path := ""
      stderrOut := "Unable to log panic to " ++ w.localLogDir ++ ": " ++ merr ++ "\n\n"
        ++ logPanicToWriter w buf e
      fileContent := none
      events := [(LogDest.stderrDest, e)] }
  | none =>
    match w.createErr with
    | some cerr =>
      { path := ""
        stderrOut := logPanicToWriter w buf e
          ++ ("Unable to log panic to " ++ full ++ "\n\n")
          ++ logPanicToWriter w buf cerr
        fileContent := none
        events := [(LogDest.stderrDest, e), (LogDest.stderrDest, cerr)] }
    | none =>
      { path := full
        stderrOut := ""
        fileContent := some (logPanicToWriter w buf e)
        events := [(LogDest.fileDest, e)] }

/-- `Error(format, args...)`: `line` is the format verbatim when no
variadic arguments were passed, else the `Sprintf` result; the line plus
newline goes through `ErrorWriter` = MultiWriter(os.Stderr, ErrorBuffer). -/
def Error (sprintf : Sprintf) (s : ProcState) (format : String) (args : List String) :
    ProcState :=
  let line := if args.length > 0 then sprintf format args else format
  { s with stderr := s.stderr ++ line ++ "\n"
           errorBuffer := s.errorBuffer ++ line ++ "\n" }

/-- `Print(format, args...)`: always formats; the line plus newline goes
through `OutputWriter` = MultiWriter(os.Stdout, ErrorBuffer). -/
def Print (sprintf : Sprintf) (s : ProcState) (format : String) (args : List String) :
    ProcState :=
  let line := sprintf format args
  { s with stdout := s.stdout ++ line ++ "\n"
           errorBuffer := s.errorBuffer ++ line ++ "\n" }

/-- `Exit(format, args...)`: `Error` then `os.Exit(2)`. -/
def Exit (sprintf : Sprintf) (s : ProcState) (format : String) (args : List String) :
    ProcState :=
  let s := Error sprintf s format args
  { s with exitCode := some 2 }

/-- `handlePanic(err)`: nil guard, then `logPanic`; its stderr output and
artifacts are merged into the process state, the path is returned. -/
def handlePanic (w : World) (s : ProcState) (err : Option GoError) :
    ProcState × String :=
  match err with
  | none => (s, "")
  | some e =>
    let r := logPanic w s.errorBuffer e
    ({ s with stderr := s.stderr ++ r.stderrOut
              logFiles := s.logFiles ++ (match r.fileContent with
                | some c => [(r.path, c)]
                | none => [])
              logEvents := s.logEvents ++ r.events },
     r.path)

/-- `LoggedError(err, format, args...)`: message as an error, then
`handlePanic`, then the log-location report to the real stderr when a
file path was returned. -/
def LoggedError (sprintf : Sprintf) (w : World) (s : ProcState) (err : Option GoError)
    (format : String) (args : List String) : ProcState :=
  let s1 := Error sprintf s format args
  let p := handlePanic w s1 err
  if p.2.length > 0 then
    { p.1 with stderr := p.1.stderr ++ "\nErrors logged to " ++ p.2
        ++ "\nUse `git lfs logs last` to view the log.\n" }
  else p.1

/-- `Panic(err, format, args...)`: `LoggedError` then `os.Exit(2)`. -/
def Panic (sprintf : Sprintf) (w : World) (s : ProcState) (err : Option GoError)
    (format : String) (args : List String) : ProcState :=
  let s := LoggedError sprintf w s err format args
  { s with exitCode := some 2 }

/-- `ExitWithError(err)`: the error classifier of the dispatch surface. -/
def ExitWithError (sprintf : Sprintf) (w : World) (s : ProcState) (e : GoError) :
    ProcState :=
  if s.debugging || e.fatal then
    Panic sprintf w s (some e) e.msg []
  else
    let s1 := match e.inner with
      | some innerMsg => Error sprintf s innerMsg []
      | none => s
    Exit sprintf s1 e.msg []

/-- A recorded call to one of the two dual-sink entry points. -/
inductive PECall where
  | print (format : String) (args : List String)
  | error (format : String) (args : List String)
deriving DecidableEq

/-- Dispatch one recorded call. -/
def dispatchCall (sprintf : Sprintf) (s : ProcState) : PECall → ProcState
  | .print f a => Print sprintf s f a
  | .error f a => Error sprintf s f a

/-- Run a sequence of `Print`/`Error` calls in order. -/
def runCalls (sprintf : Sprintf) (s : ProcState) : List PECall → ProcState
  | [] => s
  | c :: rest => runCalls sprintf (dispatchCall sprintf s c) rest

/-- The line a recorded call writes (before the appended newline). -/
def lineOf (sprintf : Sprintf) : PECall → String
  | .print f a => sprintf f a
  | .error f a => if a.length > 0 then sprintf f a else f

/-- Concatenation, in call order, of every written line followed by a
newline. -/
def concatLines (sprintf : Sprintf) : List PECall → String
  | [] => ""
  | c :: rest => lineOf sprintf c ++ "\n" ++ concatLines sprintf rest

/-- The VCS tool version line of the Diagnostic Log Record, per the spec:
the resolved version, or the lookup-failure line. -/
def specGitVersionLine (w : World) : String :=
  match w.gitVersionRet with
  | (v, none) => v
  | (_, some emsg) => "Error getting git version: " ++ emsg

/-- The invoked command line of the Diagnostic Log Record, prefixed with
a dollar sign and a space. -/
def specCommandLine (w : World) : String :=
  "$ " ++ filepathBase w.arg0 ++ " " ++ goStringsJoin " " w.argRest

/-- The detail section of the Diagnostic Log Record: when the
diagnostic-context capability is present, the inner-error description,
the `key=value` context lines and the raw stack bytes; otherwise a
generic stack capture. -/
def specDetail (w : World) (e : GoError) : String :=
  match e.cap with
  | some c => c.innerError ++ "\n" ++ contextLines c.context ++ c.stack
  | none => w.genericStack

/-- The Diagnostic Log Record body in the order the claim states it:
version descriptor line, VCS version line, blank line, command line,
blank line, transcript, blank line, error message, detail, `ENV:`
marker, environment lines. -/
def specLogBodyClaimed (w : World) (buf : String) (e : GoError) : String :=
  String.join
    [ w.versionDesc ++ "\n"
    , specGitVersionLine w ++ "\n"
    , "\n"
    , specCommandLine w ++ "\n"
    , "\n"
    , buf
    , "\n"
    , e.msg ++ "\n"
    , specDetail w e
    , "\nENV:\n"
    , envLines w.environ ]

/-- The Diagnostic Log Record body in the amended order: as claimed, but
with no blank line between the command line and the transcript — the
transcript follows the command line immediately. -/
def specLogBody (w : World) (buf : String) (e : GoError) : String :=
  String.join
    [ w.versionDesc ++ "\n"
    , specGitVersionLine w ++ "\n"
    , "\n"
    , specCommandLine w ++ "\n"
    , buf
    , "\n"
    , e.msg ++ "\n"
    , specDetail w e
    , "\nENV:\n"
    , envLines w.environ ]

/-- Split a character list into its newline-separated lines. -/
def splitLines : List Char → List (List Char)
  | [] => [[]]
  | c :: rest =>
    match splitLines rest with
    | [] => [[]]
    | l :: ls => if c = '\n' then [] :: l :: ls else (c :: l) :: ls

/-- Whether `body` contains `line` as one of its newline-separated lines. -/
def hasLine (body line : String) : Bool :=
  (splitLines body.toList).contains line.toList

/-- A concrete formatter for witnesses and counterexamples. -/
def spX : Sprintf := fun f a => f ++ goStringsJoin "," a

/-- A concrete world in which directory and file creation succeed. -/
def wOk : World :=
  { versionDesc := "git-lfs/1.2.0"
  , gitVersionRet := ("git version 2.40", none)
  , arg0 := "git-lfs"
  , argRest := ["push", "origin"]
  , environ := ["HOME=/home/u", "LANG=C"]
  , genericStack := "goroutine 1 [running]"
  , localLogDir := "/home/u/.git/lfs/logs"
  , timestamp := "20261011T120000.000000001"
  , mkdirErr := none
  , createErr := none }

/-- A concrete error that fails the fatal predicate, has no inner cause
and no capability. -/
def ePlain : GoError :=
  { msg := "network unreachable", fatal := false, inner := none, cap := none }

/-- A concrete fatal error without the capability. -/
def eFatal : GoError :=
  { msg := "broken state", fatal := true, inner := none, cap := none }

/-- A concrete error exposing the diagnostic-context capability with
context mapping retry to 3. -/
def eRetry : GoError :=
  { msg := "upload failed"
  , fatal := true
  , inner := none
  , cap := some { context := [("retry", "3")]
                , innerError := "connection reset"
                , stack := "stack bytes" } }

/-- A fresh process state: empty streams and transcript, debug flag off,
no artifacts, not exited. -/
def s0 : ProcState :=
  { stdout := "", stderr := "", errorBuffer := "", debugging := false
  , logFiles := [], logEvents := [], exitCode := none }

/-- A concrete world in which `os.MkdirAll` fails. -/
def wMkdirFail : World :=
  { wOk with mkdirErr := some "eacces" }

/-- The concrete error returned by the failing `os.Create`. -/
def eCreate : GoError :=
  { msg := "open log: eacces", fatal := false, inner := none, cap := none }

/-- A concrete world in which the directory exists but `os.Create`
fails. -/
def wCreateFail : World :=
  { wOk with createErr := some eCreate }

/-- A concrete non-fatal error with an inner cause. -/
def eInner : GoError :=
  { msg := "write failed", fatal := false, inner := some "disk quota exceeded"
  , cap := none }

/-- A fresh process state with the debug flag set. -/
def sDbg : ProcState :=
  { s0 with debugging := true }

end commands

open commands

theorem strAppendAssoc (a b c : String) : a ++ b ++ c = a ++ (b ++ c) := by
  apply String.ext
  simp [String.data_append]

/-- Claim C1: for every sequence of calls to `Print` and `Error`, in any
interleaving, the final contents of the shared transcript buffer equal
the byte-for-byte concatenation, in call order, of every line written to
either logical stream, each followed by a newline. -/
theorem C1_transcript_exact_concat (sprintf : Sprintf) (s : ProcState)
    (calls : List PECall) :
    (runCalls sprintf s calls).errorBuffer
      = s.errorBuffer ++ concatLines sprintf calls := by
  induction calls generalizing s with
  | nil => simp [runCalls, concatLines]
  | cons c rest ih =>
    cases c with
    | print f a =>
      simp [runCalls, dispatchCall, Print, concatLines, lineOf, ih, strAppendAssoc]
    | error f a =>
      simp [runCalls, dispatchCall, Error, concatLines, lineOf, ih, strAppendAssoc]

/-- Claim C10: when `Error` is called with zero variadic arguments the
format string is written verbatim, followed by a newline, to both the
real error stream and the transcript, independently of the formatter
(so no printf-verb interpretation occurs and percent signs survive). -/
theorem C10_verbatim_no_format (sprintf : Sprintf) (s : ProcState) (format : String) :
    Error sprintf s format []
      = { s with stderr := s.stderr ++ format ++ "\n"
                 errorBuffer := s.errorBuffer ++ format ++ "\n" } := by
  simp [Error]

/-- Claim C3 counterexample: at a concrete world and error, the log body
written by `logPanicToWriter` differs from the claimed fixed order,
which places a blank line between the command line and the transcript. -/
theorem C3_counterexample :
    logPanicToWriter wOk "uploading file\n" ePlain
      ≠ specLogBodyClaimed wOk "uploading file\n" ePlain := by
  decide

/-- Claim C3 (amended): the log body is written in the fixed order with
no blank line between the command line and the transcript; and a log
written for an error exposing context mapping retry to 3 contains a
line literally reading retry=3. -/
theorem C3_log_body_fixed_order :
    (∀ (w : World) (buf : String) (e : GoError),
        logPanicToWriter w buf e = specLogBody w buf e)
    ∧ hasLine (logPanicToWriter wOk "uploading file\n" eRetry) "retry=3" = true := by
  constructor
  · intro w buf e
    rcases hw : w.gitVersionRet with ⟨v, _ | em⟩ <;>
      rcases hc : e.cap with _ | c <;>
        · apply String.ext
          simp [logPanicToWriter, specLogBody, specGitVersionLine, specCommandLine,
            specDetail, hw, hc, String.join, String.data_append]
  · decide

/-- Claim C4: when the log directory cannot be created, `logPanic` emits
a one-line warning naming the directory and the underlying failure to
the real error stream, follows it with the complete log body, creates
no file, and returns the empty path. -/
theorem C4_mkdir_fail_fallback (w : World) (buf : String) (e : GoError) (m : String)
    (hm : w.mkdirErr = some m) :
    (logPanic w buf e).path = "" ∧
    (logPanic w buf e).fileContent = none ∧
    (logPanic w buf e).stderrOut
      = "Unable to log panic to " ++ w.localLogDir ++ ": " ++ m ++ "\n\n"
        ++ logPanicToWriter w buf e ∧
    (logPanic w buf e).events = [(LogDest.stderrDest, e)] := by
  simp [logPanic, hm]

/-- Claim C4 witness at a concrete failing world. -/
theorem C4_witness :
    wMkdirFail.mkdirErr = some "eacces" ∧
    ((logPanic wMkdirFail "t\n" ePlain).path = "" ∧
     (logPanic wMkdirFail "t\n" ePlain).fileContent = none ∧
     (logPanic wMkdirFail "t\n" ePlain).stderrOut
       = "Unable to log panic to " ++ wMkdirFail.localLogDir ++ ": " ++ "eacces" ++ "\n\n"
         ++ logPanicToWriter wMkdirFail "t\n" ePlain ∧
     (logPanic wMkdirFail "t\n" ePlain).events = [(LogDest.stderrDest, ePlain)]) :=
  ⟨rfl, C4_mkdir_fail_fallback wMkdirFail "t\n" ePlain "eacces" rfl⟩

/-- Claim C5: when the directory exists but the log file cannot be
created, `logPanic` returns the empty path, creates no file, and the
real error stream receives the logged error's body exactly once,
followed by the warning naming the file that could not be created and
by the body logged for the creation error. -/
theorem C5_create_fail_fallback (w : World) (buf : String) (e ce : GoError)
    (hm : w.mkdirErr = none) (hc : w.createErr = some ce) (hne : ce ≠ e) :
    (logPanic w buf e).path = "" ∧
    (logPanic w buf e).fileContent = none ∧
    (logPanic w buf e).stderrOut
      = logPanicToWriter w buf e
        ++ ("Unable to log panic to "
              ++ filepathJoin w.localLogDir (w.timestamp ++ ".log") ++ "\n\n")
        ++ logPanicToWriter w buf ce ∧
    (logPanic w buf e).events = [(LogDest.stderrDest, e), (LogDest.stderrDest, ce)] ∧
    (logPanic w buf e).events.countP (fun ev => ev.2 == e) = 1 := by
  refine ⟨?_, ?_, ?_, ?_, ?_⟩ <;>
    simp [logPanic, hm, hc, List.countP_cons, List.countP_nil, hne]

/-- Claim C5 witness at a concrete failing world. -/
theorem C5_witness :
    wCreateFail.mkdirErr = none ∧ wCreateFail.createErr = some eCreate ∧ eCreate ≠ ePlain ∧
    ((logPanic wCreateFail "t\n" ePlain).path = "" ∧
     (logPanic wCreateFail "t\n" ePlain).fileContent = none ∧
     (logPanic wCreateFail "t\n" ePlain).stderrOut
       = logPanicToWriter wCreateFail "t\n" ePlain
         ++ ("Unable to log panic to "
               ++ filepathJoin wCreateFail.localLogDir (wCreateFail.timestamp ++ ".log")
               ++ "\n\n")
         ++ logPanicToWriter wCreateFail "t\n" eCreate ∧
     (logPanic wCreateFail "t\n" ePlain).events
       = [(LogDest.stderrDest, ePlain), (LogDest.stderrDest, eCreate)] ∧
     (logPanic wCreateFail "t\n" ePlain).events.countP (fun ev => ev.2 == ePlain) = 1) :=
  ⟨rfl, rfl, by decide,
   C5_create_fail_fallback wCreateFail "t\n" ePlain eCreate rfl rfl (by decide)⟩

theorem logPathLengthPos (w : World) :
    0 < (filepathJoin w.localLogDir (w.timestamp ++ ".log")).length := by
  have h4 : (".log" : String).length = 4 := by decide
  unfold filepathJoin
  split <;> simp [String.length_append, h4]

/-- Claim C6: for a non-fatal error with an inner cause and the debug
flag unset, `ExitWithError` prints the inner cause's message, then the
error's own message, records exit status 2, and changes nothing else —
in particular it writes no diagnostic log file. -/
theorem C6_recoverable_inner (sprintf : Sprintf) (w : World) (s : ProcState)
    (e : GoError) (im : String)
    (hd : s.debugging = false) (hf : e.fatal = false) (hi : e.inner = some im) :
    ExitWithError sprintf w s e
      = { s with stderr := s.stderr ++ im ++ "\n" ++ e.msg ++ "\n"
                 errorBuffer := s.errorBuffer ++ im ++ "\n" ++ e.msg ++ "\n"
                 exitCode := some 2 } := by
  simp [ExitWithError, hd, hf, hi, Exit, Error]

/-- Claim C6 witness at a concrete recoverable error with inner cause. -/
theorem C6_witness :
    s0.debugging = false ∧ eInner.fatal = false ∧
    eInner.inner = some "disk quota exceeded" ∧
    ExitWithError spX wOk s0 eInner
      = { s0 with
            stderr := s0.stderr ++ "disk quota exceeded" ++ "\n" ++ eInner.msg ++ "\n"
            errorBuffer :=
              s0.errorBuffer ++ "disk quota exceeded" ++ "\n" ++ eInner.msg ++ "\n"
            exitCode := some 2 } :=
  ⟨rfl, rfl, rfl, C6_recoverable_inner spX wOk s0 eInner "disk quota exceeded" rfl rfl rfl⟩

/-- Claim C9 counterexample: a non-fatal error without inner cause, but
with the debug flag set, makes `ExitWithError` create a log file, so the
claim's zero-log-files conclusion fails as stated. -/
theorem C9_counterexample :
    ePlain.fatal = false ∧ ePlain.inner = none ∧ sDbg.logFiles = [] ∧
    (ExitWithError spX wOk sDbg ePlain).logFiles ≠ [] := by
  refine ⟨rfl, rfl, rfl, ?_⟩
  decide

/-- Claim C9 (amended): for a non-fatal error without inner cause, when
the debug flag is unset, `ExitWithError` prints exactly one error line,
records exit status 2, and changes nothing else — zero log files. -/
theorem C9_recoverable_plain (sprintf : Sprintf) (w : World) (s : ProcState)
    (e : GoError)
    (hd : s.debugging = false) (hf : e.fatal = false) (hi : e.inner = none) :
    ExitWithError sprintf w s e
      = { s with stderr := s.stderr ++ e.msg ++ "\n"
                 errorBuffer := s.errorBuffer ++ e.msg ++ "\n"
                 exitCode := some 2 } := by
  simp [ExitWithError, hd, hf, hi, Exit, Error]

/-- Claim C9 witness at a concrete plain recoverable error. -/
theorem C9_witness :
    s0.debugging = false ∧ ePlain.fatal = false ∧ ePlain.inner = none ∧
    ExitWithError spX wOk s0 ePlain
      = { s0 with stderr := s0.stderr ++ ePlain.msg ++ "\n"
                  errorBuffer := s0.errorBuffer ++ ePlain.msg ++ "\n"
                  exitCode := some 2 } :=
  ⟨rfl, rfl, rfl, C9_recoverable_plain spX wOk s0 ePlain rfl rfl rfl⟩

/-- Claim C2: for a fatal error, `ExitWithError` records exit status 2
and produces exactly one diagnostic log artifact for that error — one
`logPanicToWriter` invocation, to the log file or to the real error
stream as fallback. -/
theorem C2_fatal_one_artifact_exit2 (sprintf : Sprintf) (w : World) (s : ProcState)
    (e : GoError) (hf : e.fatal = true) (hev : s.logEvents = [])
    (hce : ∀ ce, w.createErr = some ce → ce ≠ e) :
    (ExitWithError sprintf w s e).exitCode = some 2 ∧
    (ExitWithError sprintf w s e).logEvents.countP (fun ev => ev.2 == e) = 1 := by
  rcases hm : w.mkdirErr with _ | m
  · rcases hc : w.createErr with _ | ce
    · simp [ExitWithError, hf, Panic, LoggedError, handlePanic, logPanic, hm, hc,
        Error, hev, apply_ite, List.countP_cons, List.countP_nil]
    · have hne := hce ce hc
      simp [ExitWithError, hf, Panic, LoggedError, handlePanic, logPanic, hm, hc,
        Error, hev, apply_ite, List.countP_cons, List.countP_nil, hne]
  · simp [ExitWithError, hf, Panic, LoggedError, handlePanic, logPanic, hm,
      Error, hev, apply_ite, List.countP_cons, List.countP_nil]

/-- Claim C2 witness at a concrete fatal error in the successful world. -/
theorem C2_witness :
    eFatal.fatal = true ∧ s0.logEvents = [] ∧
    ((ExitWithError spX wOk s0 eFatal).exitCode = some 2 ∧
     (ExitWithError spX wOk s0 eFatal).logEvents.countP (fun ev => ev.2 == eFatal) = 1) :=
  ⟨rfl, rfl, C2_fatal_one_artifact_exit2 spX wOk s0 eFatal rfl rfl
    (fun _ h => Option.noConfusion h)⟩

/-- Claim C7 counterexample: called with a nil error, `LoggedError`
produces no diagnostic log file and reports no location — only the
message is printed — so the claim fails as stated for every call. -/
theorem C7_counterexample :
    (LoggedError spX wOk s0 none "oops" []).logFiles = [] ∧
    (LoggedError spX wOk s0 none "oops" []).stderr = "oops\n" := by
  constructor <;> decide

/-- Claim C7 (amended): for every call with a non-nil error, when the
log directory and the log file are successfully created, `LoggedError`
writes the formatted message as an error, produces exactly one
diagnostic log file regardless of the fatal classification, reports the
log file's location on the real error stream, and does not touch the
exit status. -/
theorem C7_logged_error_success (sprintf : Sprintf) (w : World) (s : ProcState)
    (e : GoError) (format : String) (args : List String)
    (hm : w.mkdirErr = none) (hc : w.createErr = none) :
    LoggedError sprintf w s (some e) format args
      = { s with
            stderr := s.stderr ++ (if args.length > 0 then sprintf format args else format)
              ++ "\n" ++ "\nErrors logged to "
              ++ filepathJoin w.localLogDir (w.timestamp ++ ".log")
              ++ "\nUse `git lfs logs last` to view the log.\n"
            errorBuffer := s.errorBuffer
              ++ (if args.length > 0 then sprintf format args else format) ++ "\n"
            logFiles := s.logFiles
              ++ [(filepathJoin w.localLogDir (w.timestamp ++ ".log"),
                   logPanicToWriter w
                     (s.errorBuffer
                       ++ (if args.length > 0 then sprintf format args else format) ++ "\n")
                     e)]
            logEvents := s.logEvents ++ [(LogDest.fileDest, e)] } := by
  have hlen := logPathLengthPos w
  simp [LoggedError, handlePanic, logPanic, hm, hc, Error, hlen, String.append_empty]

/-- Claim C7 witness: a concrete non-fatal error still yields the log
file and the location report. -/
theorem C7_witness :
    wOk.mkdirErr = none ∧ wOk.createErr = none ∧
    LoggedError spX wOk s0 (some ePlain) "m" []
      = { s0 with
            stderr := s0.stderr ++ (if ([] : List String).length > 0 then spX "m" [] else "m")
              ++ "\n" ++ "\nErrors logged to "
              ++ filepathJoin wOk.localLogDir (wOk.timestamp ++ ".log")
              ++ "\nUse `git lfs logs last` to view the log.\n"
            errorBuffer := s0.errorBuffer
              ++ (if ([] : List String).length > 0 then spX "m" [] else "m") ++ "\n"
            logFiles := s0.logFiles
              ++ [(filepathJoin wOk.localLogDir (wOk.timestamp ++ ".log"),
                   logPanicToWriter wOk
                     (s0.errorBuffer
                       ++ (if ([] : List String).length > 0 then spX "m" [] else "m") ++ "\n")
                     ePlain)]
            logEvents := s0.logEvents ++ [(LogDest.fileDest, ePlain)] } :=
  ⟨rfl, rfl, C7_logged_error_success spX wOk s0 ePlain "m" [] rfl rfl⟩

/-- Claim C8: `LoggedError` never records a process exit for any input,
and with a nil error its only effect is printing the message through the
error dual-sink. -/
theorem C8_no_exit (sprintf : Sprintf) (w : World) (s : ProcState)
    (err : Option GoError) (format : String) (args : List String) :
    (LoggedError sprintf w s err format args).exitCode = s.exitCode ∧
    (err = none → LoggedError sprintf w s err format args = Error sprintf s format args) := by
  constructor
  · cases err with
    | none => simp [LoggedError, handlePanic, Error]
    | some e =>
      rcases hm : w.mkdirErr with _ | m
      · rcases hc : w.createErr with _ | ce
        · simp [LoggedError, handlePanic, logPanic, hm, hc, Error, apply_ite]
        · simp [LoggedError, handlePanic, logPanic, hm, hc, Error, apply_ite]
      · simp [LoggedError, handlePanic, logPanic, hm, Error, apply_ite]
  · intro h
    subst h
    simp [LoggedError, handlePanic]

/-- Claim C8 witness: concrete non-nil and nil inputs. -/
theorem C8_witness :
    (LoggedError spX wOk s0 (some eFatal) "m" []).exitCode = s0.exitCode ∧
    LoggedError spX wOk s0 none "m" [] = Error spX s0 "m" [] :=
  ⟨(C8_no_exit spX wOk s0 (some eFatal) "m" []).1,
   (C8_no_exit spX wOk s0 none "m" []).2 rfl⟩
